import Mathlib

/-!
Verification of the byteminds-util helper library (src/mod.ts).

The library is a thin wrapper over three foreign collaborators:
a mail library (nodemailer), an authentication library (Lucia) and a
cookie sink (SvelteKit Cookies).  We embed the four exported helpers
shallowly:

* pure object construction (composeMessage, the configuration record of
  mailTransporter) becomes plain Lean record construction;
* the foreign collaborators become records of Lean functions, with the
  fallible calls returning Except (a JavaScript call may throw);
* the stateful/effectful behaviour of each helper is captured by the
  ordered list of external calls the helper makes (its event trace)
  together with its Except result; the cookie-sink state reached from a
  given initial sink is recovered from the trace by applySetCalls.
-/

namespace BytemindsUtil

/-- The mail message record built by the composer: four string fields,
the body argument stored under the html field. -/
structure ComposeMessage where
  «from» : String
  «to» : String
  subject : String
  html : String
  deriving Repr, DecidableEq

/-- Shallow embedding of composeMessage (src/mod.ts lines 47-59): returns
the record whose fields are the four arguments verbatim. -/
def composeMessage («from» : String) («to» : String) (subject : String)
    (body : String) : ComposeMessage :=
  { «from» := «from», «to» := «to», subject := subject, html := body }

/-- The nested auth credential pair of the transport configuration. -/
structure TransportAuth where
  user : String
  pass : String
  deriving Repr, DecidableEq

/-- The configuration record handed to the mail library factory:
host, port, secure, service, auth. -/
structure TransportConfig where
  host : String
  port : Nat
  secure : Bool
  service : String
  auth : TransportAuth
  deriving Repr, DecidableEq

/-- The mail library as this code uses it: a factory turning a
configuration record into an opaque transport value. -/
structure Nodemailer (τ : Type) where
  createTransport : TransportConfig → τ

/-- Shallow embedding of mailTransporter (src/mod.ts lines 93-111):
builds the configuration record from the six parameters and calls the
factory once.  The first component records, in order, every
configuration passed to the factory during the run; the second is the
returned transport. -/
def mailTransporter {τ : Type} (nm : Nodemailer τ) (host : String)
    (port : Nat) (secure : Bool) (service : String) (email : String)
    (password : String) : List TransportConfig × τ :=
  let config : TransportConfig :=
    { host := host, port := port, secure := secure, service := service,
      auth := { user := email, pass := password } }
  ([config], nm.createTransport config)

/-- A Lucia session: only its id is consumed by this code. -/
structure Session where
  id : String
  deriving Repr, DecidableEq

/-- Library-supplied cookie attributes.  A JavaScript object may or may
not carry each key, so every field is an Option; none means the key is
absent. -/
structure CookieAttributes where
  path : Option String
  domain : Option String
  sameSite : Option String
  httpOnly : Option Bool
  secure : Option Bool
  maxAge : Option Nat
  deriving Repr, DecidableEq

/-- A session cookie as returned by the authentication library:
name, value and attributes. -/
structure SessionCookie where
  name : String
  value : String
  attributes : CookieAttributes
  deriving Repr, DecidableEq

/-- The options object passed to the cookie sink.  Its path key is
always present (the object literal in the source starts from
path: "."), the remaining keys come from the spread attributes. -/
structure SetCookieOptions where
  path : String
  domain : Option String
  sameSite : Option String
  httpOnly : Option Bool
  secure : Option Bool
  maxAge : Option Nat
  deriving Repr, DecidableEq

/-- Models the object literal written at src/mod.ts lines 147-150 and
184-187: the spread of the attributes comes after the explicit
path key, so JavaScript semantics give the attributes precedence — a
path key present in the attributes overrides the fixed value, and the
fixed value survives only when the attributes carry no path key. -/
def spreadPathDot (attrs : CookieAttributes) : SetCookieOptions :=
  { path := attrs.path.getD ".", domain := attrs.domain,
    sameSite := attrs.sameSite, httpOnly := attrs.httpOnly,
    secure := attrs.secure, maxAge := attrs.maxAge }

/-- The authentication library handle as this code uses it, with error
type ε: an asynchronous session creator taking a user id and a metadata
object (modelled as an association list), a session-cookie derivation
from a session id, and a blank-session-cookie constructor.  Each call
may fail (throw), hence Except. -/
structure Lucia (ε : Type) where
  createSession : String → List (String × String) → Except ε Session
  createSessionCookie : String → Except ε SessionCookie
  createBlankSessionCookie : Unit → Except ε SessionCookie

/-- One observable external call made by a session helper. -/
inductive LuciaEvent where
  | createSessionCall (userId : String) (meta : List (String × String))
  | createSessionCookieCall (sessionId : String)
  | createBlankSessionCookieCall
  | cookiesSetCall (name : String) (value : String)
      (options : SetCookieOptions)
  deriving Repr, DecidableEq

/-- The cookie sink's state: the list of set calls it has received,
oldest first. -/
abbrev CookiesState := List (String × String × SetCookieOptions)

/-- Replays a trace against an initial sink state: each cookiesSetCall
event appends to the sink, every other event leaves it unchanged. -/
def applySetCalls (sink : CookiesState) (events : List LuciaEvent) :
    CookiesState :=
  events.foldl
    (fun s e =>
      match e with
      | .cookiesSetCall n v o => s ++ [(n, v, o)]
      | _ => s)
    sink

/-- Shallow embedding of createAndSetSession (src/mod.ts lines
135-151): awaits createSession with the user id and the empty metadata
object, derives a session cookie from the returned session's id, and
sets it on the sink with the spread options.  A failure anywhere
aborts the run there, leaving the later calls unmade.  Returns the
event trace and the Except outcome of the run. -/
def createAndSetSession {ε : Type} (lucia : Lucia ε) (userId : String) :
    List LuciaEvent × Except ε Unit :=
  match lucia.createSession userId [] with
  | .error e => ([.createSessionCall userId []], .error e)
  | .ok session =>
    match lucia.createSessionCookie session.id with
    | .error e =>
      ([.createSessionCall userId [],
        .createSessionCookieCall session.id], .error e)
    | .ok sessionCookie =>
      ([.createSessionCall userId [],
        .createSessionCookieCall session.id,
        .cookiesSetCall sessionCookie.name sessionCookie.value
          (spreadPathDot sessionCookie.attributes)],
       .ok ())

/-- Shallow embedding of deleteSessionCookie (src/mod.ts lines
176-188): asks the library for a blank session cookie and sets it on
the sink with the spread options; it takes no session state and never
reads the sink.  Returns the event trace and the Except outcome. -/
def deleteSessionCookie {ε : Type} (lucia : Lucia ε) :
    List LuciaEvent × Except ε Unit :=
  match lucia.createBlankSessionCookie () with
  | .error e => ([.createBlankSessionCookieCall], .error e)
  | .ok sessionCookie =>
    ([.createBlankSessionCookieCall,
      .cookiesSetCall sessionCookie.name sessionCookie.value
        (spreadPathDot sessionCookie.attributes)],
     .ok ())

/-- Concrete attributes carrying a path key, as the real library does
(Lucia supplies path "/"). -/
def attrsWithPath : CookieAttributes :=
  { path := some "/", domain := none, sameSite := some "lax",
    httpOnly := some true, secure := some true, maxAge := none }

/-- Concrete attributes carrying no path key. -/
def attrsNoPath : CookieAttributes :=
  { path := none, domain := none, sameSite := some "lax",
    httpOnly := some true, secure := some true, maxAge := none }

/-- A concrete handle whose cookies carry a path attribute. -/
def luciaCx : Lucia Unit :=
  { createSession := fun _ _ => .ok { id := "s1" },
    createSessionCookie := fun sid =>
      .ok { name := "auth_session", value := sid,
            attributes := attrsWithPath },
    createBlankSessionCookie := fun _ =>
      .ok { name := "auth_session", value := "",
            attributes := attrsWithPath } }

/-- A concrete handle whose cookies carry no path attribute. -/
def luciaOk : Lucia Unit :=
  { createSession := fun _ _ => .ok { id := "s1" },
    createSessionCookie := fun sid =>
      .ok { name := "auth_session", value := sid,
            attributes := attrsNoPath },
    createBlankSessionCookie := fun _ =>
      .ok { name := "auth_session", value := "",
            attributes := attrsNoPath } }

/-- A concrete handle whose fallible calls fail. -/
def luciaFailing : Lucia String :=
  { createSession := fun _ _ => .error "invalid user id",
    createSessionCookie := fun sid =>
      .ok { name := "auth_session", value := sid,
            attributes := attrsNoPath },
    createBlankSessionCookie := fun _ => .error "broken handle" }

/-- Claim C3: for all string quadruples, composeMessage returns exactly
the record whose four fields are the corresponding inputs verbatim,
with no transformation. -/
theorem composeMessage_verbatim («from» : String) («to» : String)
    (subject : String) (body : String) :
    (composeMessage «from» «to» subject body).«from» = «from» ∧
      (composeMessage «from» «to» subject body).«to» = «to» ∧
      (composeMessage «from» «to» subject body).subject = subject ∧
      (composeMessage «from» «to» subject body).html = body :=
  ⟨rfl, rfl, rfl, rfl⟩

/-- Claim C7: composeMessage is deterministic — equal inputs give equal
results.  Totality and absence of side effects hold by the very type of
the embedding: it is a total Lean function from four strings to a
message record, whose result mentions no state. -/
theorem composeMessage_deterministic (a b c d a' b' c' d' : String)
    (h1 : a = a') (h2 : b = b') (h3 : c = c') (h4 : d = d') :
    composeMessage a b c d = composeMessage a' b' c' d' := by
  rw [h1, h2, h3, h4]

/-- Claim C7 witness at concrete inputs. -/
theorem composeMessage_deterministic_witness :
    composeMessage "a@x.com" "b@x.com" "Hi" "<p>hi</p>" =
      composeMessage "a@x.com" "b@x.com" "Hi" "<p>hi</p>" :=
  composeMessage_deterministic "a@x.com" "b@x.com" "Hi" "<p>hi</p>"
    "a@x.com" "b@x.com" "Hi" "<p>hi</p>" rfl rfl rfl rfl

/-- Claim C4: mailTransporter calls the factory exactly once, with the
configuration record whose fields match the input parameters one to
one (including the nested auth pair), and returns exactly the value
the factory returns on that configuration. -/
theorem mailTransporter_config {τ : Type} (nm : Nodemailer τ)
    (host : String) (port : Nat) (secure : Bool) (service : String)
    (email : String) (password : String) :
    (mailTransporter nm host port secure service email password).1 =
        [{ host := host, port := port, secure := secure,
           service := service,
           auth := { user := email, pass := password } }] ∧
      (mailTransporter nm host port secure service email password).2 =
        nm.createTransport
          { host := host, port := port, secure := secure,
            service := service,
            auth := { user := email, pass := password } } :=
  ⟨rfl, rfl⟩

/-- Claim C9: on every call, mailTransporter passes exactly one
configuration to the factory, and that configuration carries the
service field set from the service parameter; no code path omits it
(the parameter is moreover required by the function's type). -/
theorem mailTransporter_service_included {τ : Type} (nm : Nodemailer τ)
    (host : String) (port : Nat) (secure : Bool) (service : String)
    (email : String) (password : String) :
    ((mailTransporter nm host port secure service email password).1).map
        TransportConfig.service = [service] :=
  rfl

/-- Claim C2: for every Lucia handle, user id and cookie sink, if the
library's createSession call fails with e then createAndSetSession
fails with that same e, untranslated, and the run performs no set call
on the sink — replaying its trace leaves any sink state unchanged. -/
theorem createAndSetSession_error_propagates {ε : Type}
    (lucia : Lucia ε) (userId : String) (sink : CookiesState) (e : ε)
    (h : lucia.createSession userId [] = Except.error e) :
    (createAndSetSession lucia userId).2 = Except.error e ∧
      applySetCalls sink (createAndSetSession lucia userId).1 = sink := by
  unfold createAndSetSession
  rw [h]
  exact ⟨rfl, rfl⟩

/-- Claim C2 witness at a concrete failing handle. -/
theorem createAndSetSession_error_propagates_witness :
    luciaFailing.createSession "u1" [] =
        Except.error "invalid user id" ∧
      (createAndSetSession luciaFailing "u1").2 =
        Except.error "invalid user id" ∧
      applySetCalls [] (createAndSetSession luciaFailing "u1").1 = [] :=
  ⟨rfl, (createAndSetSession_error_propagates luciaFailing "u1" []
    "invalid user id" rfl).1,
   (createAndSetSession_error_propagates luciaFailing "u1" []
    "invalid user id" rfl).2⟩

/-- Claim C10: if the library's createBlankSessionCookie call fails
with e then deleteSessionCookie fails with that same e, untranslated,
and the run performs no set call on the sink — replaying its trace
leaves any sink state unchanged. -/
theorem deleteSessionCookie_error_propagates {ε : Type}
    (lucia : Lucia ε) (sink : CookiesState) (e : ε)
    (h : lucia.createBlankSessionCookie () = Except.error e) :
    (deleteSessionCookie lucia).2 = Except.error e ∧
      applySetCalls sink (deleteSessionCookie lucia).1 = sink := by
  unfold deleteSessionCookie
  rw [h]
  exact ⟨rfl, rfl⟩

/-- Claim C10 witness at a concrete failing handle. -/
theorem deleteSessionCookie_error_propagates_witness :
    luciaFailing.createBlankSessionCookie () =
        Except.error "broken handle" ∧
      (deleteSessionCookie luciaFailing).2 =
        Except.error "broken handle" ∧
      applySetCalls [] (deleteSessionCookie luciaFailing).1 = [] :=
  ⟨rfl, (deleteSessionCookie_error_propagates luciaFailing []
    "broken handle" rfl).1,
   (deleteSessionCookie_error_propagates luciaFailing []
    "broken handle" rfl).2⟩

/-- Claim C5: in a run of createAndSetSession whose library calls
succeed, the trace is exactly: first createSession with the given user
id, then createSessionCookie with precisely the id of the session that
createSession returned, and only then the single set call writing the
resulting cookie's name and value.  (In a run where createSession
fails, no later call happens at all — see the C2 theorem.) -/
theorem createAndSetSession_call_order {ε : Type} (lucia : Lucia ε)
    (userId : String) (s : Session) (c : SessionCookie)
    (hs : lucia.createSession userId [] = Except.ok s)
    (hc : lucia.createSessionCookie s.id = Except.ok c) :
    (createAndSetSession lucia userId).1 =
        [LuciaEvent.createSessionCall userId [],
         LuciaEvent.createSessionCookieCall s.id,
         LuciaEvent.cookiesSetCall c.name c.value
           (spreadPathDot c.attributes)] ∧
      (createAndSetSession lucia userId).2 = Except.ok () := by
  simp [createAndSetSession, hs, hc]

/-- Claim C5 witness at a concrete handle. -/
theorem createAndSetSession_call_order_witness :
    (createAndSetSession luciaOk "u1").1 =
        [LuciaEvent.createSessionCall "u1" [],
         LuciaEvent.createSessionCookieCall "s1",
         LuciaEvent.cookiesSetCall "auth_session" "s1"
           (spreadPathDot attrsNoPath)] ∧
      (createAndSetSession luciaOk "u1").2 = Except.ok () :=
  createAndSetSession_call_order luciaOk "u1" { id := "s1" }
    { name := "auth_session", value := "s1", attributes := attrsNoPath }
    rfl rfl

/-- Claim C6: deleteSessionCookie calls createBlankSessionCookie and
unconditionally appends one set call with the blank cookie's name and
value to ANY prior sink state; it reads neither the sink nor any
session state (its trace contains exactly the blank-cookie call and
the set call, whatever the handle's sessions are). -/
theorem deleteSessionCookie_unconditional {ε : Type} (lucia : Lucia ε)
    (c : SessionCookie) (sink : CookiesState)
    (hb : lucia.createBlankSessionCookie () = Except.ok c) :
    (deleteSessionCookie lucia).1 =
        [LuciaEvent.createBlankSessionCookieCall,
         LuciaEvent.cookiesSetCall c.name c.value
           (spreadPathDot c.attributes)] ∧
      applySetCalls sink (deleteSessionCookie lucia).1 =
        sink ++ [(c.name, c.value, spreadPathDot c.attributes)] ∧
      (deleteSessionCookie lucia).2 = Except.ok () := by
  unfold deleteSessionCookie
  rw [hb]
  exact ⟨rfl, rfl, rfl⟩

/-- Claim C6 witness at a concrete handle and a nonempty prior sink. -/
theorem deleteSessionCookie_unconditional_witness :
    (deleteSessionCookie luciaOk).1 =
        [LuciaEvent.createBlankSessionCookieCall,
         LuciaEvent.cookiesSetCall "auth_session" ""
           (spreadPathDot attrsNoPath)] ∧
      applySetCalls [("old", "v", spreadPathDot attrsNoPath)]
          (deleteSessionCookie luciaOk).1 =
        [("old", "v", spreadPathDot attrsNoPath)] ++
          [("auth_session", "", spreadPathDot attrsNoPath)] ∧
      (deleteSessionCookie luciaOk).2 = Except.ok () :=
  deleteSessionCookie_unconditional luciaOk
    { name := "auth_session", value := "", attributes := attrsNoPath }
    [("old", "v", spreadPathDot attrsNoPath)] rfl

/-- Claim C1 counterexample: with a handle whose library-supplied
attributes carry path "/", the single set call of createAndSetSession
passes options whose path is "/", not "." — the spread placed after
the explicit path key lets the attributes override it.  The same
options reach the set call of deleteSessionCookie. -/
theorem setCall_path_overridden_counterexample :
    (createAndSetSession luciaCx "u1").1 =
        [LuciaEvent.createSessionCall "u1" [],
         LuciaEvent.createSessionCookieCall "s1",
         LuciaEvent.cookiesSetCall "auth_session" "s1"
           (spreadPathDot attrsWithPath)] ∧
      (deleteSessionCookie luciaCx).1 =
        [LuciaEvent.createBlankSessionCookieCall,
         LuciaEvent.cookiesSetCall "auth_session" ""
           (spreadPathDot attrsWithPath)] ∧
      (spreadPathDot attrsWithPath).path = "/" ∧
      ("/" : String) ≠ "." :=
  ⟨rfl, rfl, rfl, by decide⟩

/-- Claim C1 as amended: in every set call made by createAndSetSession
or deleteSessionCookie, the options' path is the path the
library-supplied attributes carry when they carry one, and "." only
when they carry none (options are the literal path "." merged under
the spread attributes, so the attributes take precedence). -/
theorem setCall_path_spread {ε : Type} (lucia : Lucia ε)
    (userId : String) (p : Option String)
    (hc : ∀ sid c, lucia.createSessionCookie sid = Except.ok c →
      c.attributes.path = p)
    (hb : ∀ c, lucia.createBlankSessionCookie () = Except.ok c →
      c.attributes.path = p) :
    ∀ n v o,
      (LuciaEvent.cookiesSetCall n v o ∈
          (createAndSetSession lucia userId).1 ∨
        LuciaEvent.cookiesSetCall n v o ∈
          (deleteSessionCookie lucia).1) →
      o.path = p.getD "." := by
  intro n v o h
  rcases h with h | h
  · rcases hs : lucia.createSession userId [] with e | s
    · simp [createAndSetSession, hs] at h
    · rcases hck : lucia.createSessionCookie s.id with e | c
      · simp [createAndSetSession, hs, hck] at h
      · simp [createAndSetSession, hs, hck] at h
        simp [h.2.2, spreadPathDot, hc s.id c hck]
  · rcases hbk : lucia.createBlankSessionCookie () with e | c
    · simp [deleteSessionCookie, hbk] at h
    · simp [deleteSessionCookie, hbk] at h
      simp [h.2.2, spreadPathDot, hb c hbk]

/-- Claim C1 amended witness: at a handle whose attributes carry no
path key, the set call of the session establisher gets path ".". -/
theorem setCall_path_spread_witness :
    (spreadPathDot attrsNoPath).path = Option.getD none "." :=
  setCall_path_spread luciaOk "u1" none
    (fun sid c h => by cases h; rfl)
    (fun c h => by cases h; rfl)
    "auth_session" "s1" (spreadPathDot attrsNoPath)
    (Or.inl (by decide))

/-- Claim C8: every createSession call made by createAndSetSession
passes the empty metadata object as second argument (and the given
user id as first); the wrapper offers callers no way to supply
metadata. -/
theorem createSession_meta_empty {ε : Type} (lucia : Lucia ε)
    (userId : String) (u : String) (m : List (String × String))
    (h : LuciaEvent.createSessionCall u m ∈
      (createAndSetSession lucia userId).1) :
    m = [] ∧ u = userId := by
  rcases hs : lucia.createSession userId [] with e | s
  · simp [createAndSetSession, hs] at h
    exact ⟨h.2, h.1⟩
  · rcases hck : lucia.createSessionCookie s.id with e | c <;>
      simp [createAndSetSession, hs, hck] at h <;>
      exact ⟨h.2, h.1⟩

/-- Claim C8 witness at a concrete handle. -/
theorem createSession_meta_empty_witness :
    ([] : List (String × String)) = [] ∧ "u1" = "u1" :=
  createSession_meta_empty luciaOk "u1" "u1" []
    (List.Mem.head _)

end BytemindsUtil
